import Mathlib

/-!
Shallow embedding of the word-detective game core (models, word validator,
board generator and rules engine) together with theorems checking the
specification's claims against it.

Conventions of the embedding:
* Python `str` values are Lean `String`s; the handful of Python string
  operations the code uses (`strip`, `lower`, `isalpha`, substring `in`,
  `replace(c, "")`) are modelled over the character list `String.data`.
* Python `int` is `Int`.
* Methods that mutate an object return the updated value; rule-engine
  methods that mutate the game state thread it explicitly.
* Code paths that raise an exception (`StopIteration` from `next`,
  `AttributeError` from a method call on `None`, `ValueError` from a
  dataclass `__post_init__`) are modelled with `Option`/`Except`.
* `random.shuffle` is modelled by an explicit shuffle parameter, assumed
  to return a permutation of its input where a claim needs that.
-/

namespace WordDetective

/-- The apostrophe character, written by code point. -/
def apostChar : Char := Char.ofNat 39

/-- Python `str.lower()` on the character list (ASCII model, as used by the code). -/
def pyLowerList (l : List Char) : List Char := l.map Char.toLower

/-- Python `str.lower()`. -/
def pyLower (s : String) : String := ⟨pyLowerList s.data⟩

/-- Python `str.strip()` on the character list: drop whitespace from both ends. -/
def pyStripList (l : List Char) : List Char :=
  ((l.dropWhile Char.isWhitespace).reverse.dropWhile Char.isWhitespace).reverse

/-- Python `str.strip()`. -/
def pyStrip (s : String) : String := ⟨pyStripList s.data⟩

/-- Python `str.isalpha()` (ASCII model): nonempty and every character alphabetic. -/
def pyIsAlphaList (l : List Char) : Bool := !l.isEmpty && l.all Char.isAlpha

/-- Python `sub in sup` contiguous-substring test, on character lists. -/
def pyIn (sub sup : String) : Bool := decide (sub.data <:+: sup.data)

/-- Python `s.replace(c, "")`: remove every occurrence of a character. -/
def pyRemoveChar (c : Char) (l : List Char) : List Char := l.filter (fun x => x ≠ c)

/-- Python `s[-3:]` for the rhyme check: the last three characters. -/
def lastThree (s : String) : List Char := (s.data.reverse.take 3).reverse

/-- `CardColor` from `models/card.py`. -/
inductive CardColor where
  | red
  | blue
  | neutral
  | failure
deriving DecidableEq, Repr

/-- `Card` from `models/card.py`. -/
structure Card where
  word : String
  color : CardColor
  revealed : Bool := false
  position : Option (Nat × Nat) := none
deriving DecidableEq, Repr

/-- `Card.reveal`: mark revealed, return the color together with the updated card. -/
def Card.reveal (c : Card) : CardColor × Card :=
  (c.color, { c with revealed := true })

/-- `PlayerRole` from `models/player.py`. -/
inductive PlayerRole where
  | chief
  | detective
deriving DecidableEq, Repr

/-- `Player` from `models/player.py`. -/
structure Player where
  name : String
  role : PlayerRole
deriving DecidableEq, Repr

/-- `Player.is_chief`. -/
def Player.is_chief (p : Player) : Bool := p.role = PlayerRole.chief

/-- `Player.is_detective`. -/
def Player.is_detective (p : Player) : Bool := p.role = PlayerRole.detective

/-- `Team` from `models/team.py`; `words_remaining` and `total_words` default to 0. -/
structure Team where
  color : CardColor
  players : List Player := []
  words_remaining : Int := 0
  total_words : Int := 0
deriving DecidableEq, Repr

/-- `Team(...)` construction including `__post_init__`'s color validation
(`ValueError` becomes `Except.error`). -/
def mkTeam (color : CardColor) (players : List Player := [])
    (words_remaining : Int := 0) (total_words : Int := 0) : Except String Team :=
  if color ≠ CardColor.red ∧ color ≠ CardColor.blue then
    Except.error "Team color must be RED or BLUE"
  else
    Except.ok { color := color, players := players,
                words_remaining := words_remaining, total_words := total_words }

/-- `Team.has_chief`. -/
def Team.has_chief (t : Team) : Bool := t.players.any Player.is_chief

/-- `Team.has_detectives`. -/
def Team.has_detectives (t : Team) : Bool := t.players.any Player.is_detective

/-- `Team.word_found`: decrement `words_remaining`, floored at 0. -/
def Team.word_found (t : Team) : Team :=
  if t.words_remaining > 0 then { t with words_remaining := t.words_remaining - 1 } else t

/-- `Team.has_won`: all words found. -/
def Team.has_won (t : Team) : Bool := t.words_remaining = 0

/-- `Team.set_word_count`. -/
def Team.set_word_count (t : Team) (total_words : Int) : Team :=
  { t with total_words := total_words, words_remaining := total_words }

/-- `Clue` from `models/clue.py`. -/
structure Clue where
  word : String
  number : Int
  team_color : CardColor
  guesses_remaining : Int := 0
deriving DecidableEq, Repr

/-- `Clue(...)` construction including `__post_init__`: a `guesses_remaining`
argument of 0 (the default) is replaced by `number + 1`, then the
`ValueError` validations run (modelled with `Except.error`). -/
def mkClue (word : String) (number : Int) (team_color : CardColor)
    (guesses_remaining : Int := 0) : Except String Clue :=
  let g := if guesses_remaining = 0 then number + 1 else guesses_remaining
  if number < 1 then Except.error "Clue number must be at least 1"
  else if pyStrip word = "" then Except.error "Clue word cannot be empty"
  else if team_color ≠ CardColor.red ∧ team_color ≠ CardColor.blue then
    Except.error "Clue team color must be RED or BLUE"
  else Except.ok { word := word, number := number, team_color := team_color,
                   guesses_remaining := g }

/-- `Clue.use_guess`: decrement `guesses_remaining` when positive; return the
remaining count together with the updated clue. -/
def Clue.use_guess (c : Clue) : Int × Clue :=
  let c2 := if c.guesses_remaining > 0 then
    { c with guesses_remaining := c.guesses_remaining - 1 } else c
  (c2.guesses_remaining, c2)

/-- `Clue.has_guesses_left`. -/
def Clue.has_guesses_left (c : Clue) : Bool := c.guesses_remaining > 0

/-! ## Word validator (`utils/word_validator.py`) -/

/-- `WordValidator._contains_board_word`: the clue contains, or is contained
in, some board word of length at least 3 (board words already lowercased). -/
def contains_board_word (clue : String) (board_words : List String) : Bool :=
  board_words.any (fun bw => decide (3 ≤ bw.length) && (pyIn bw clue || pyIn clue bw))

/-- `WordValidator._words_rhyme`: identical words of length at least 3, or a
shared last-3-character suffix when both words have length at least 4. -/
def words_rhyme (word1 word2 : String) : Bool :=
  if word1.data.length < 3 ∨ word2.data.length < 3 then false
  else if word1 = word2 then true
  else if lastThree word1 = lastThree word2 ∧ 4 ≤ word1.data.length ∧ 4 ≤ word2.data.length then
    true
  else false

/-- `WordValidator._is_rhyming_word`. -/
def is_rhyming_word (clue : String) (board_words : List String) : Bool :=
  board_words.any (fun bw => words_rhyme clue bw)

/-- `WordValidator.is_valid_clue_word`: sequential checks, short-circuiting on
the first failure, returning `(ok, reason)`. -/
def is_valid_clue_word (clue : String) (board_words : List String) : Bool × String :=
  if clue = "" ∨ pyStrip clue = "" then (false, "Clue cannot be empty")
  else
    let cleaned_clue : String := pyLower (pyStrip clue)
    if ¬ pyIsAlphaList (pyRemoveChar apostChar (pyRemoveChar (Char.ofNat 45) cleaned_clue.data)) then
      (false, "Clue must contain only letters, hyphens, or apostrophes")
    else if cleaned_clue.data.length < 2 then
      (false, "Clue must be at least 2 characters long")
    else
      let board_words_lower := board_words.map pyLower
      if cleaned_clue ∈ board_words_lower then
        (false, "Clue cannot be a word that appears on the board")
      else if contains_board_word cleaned_clue board_words_lower then
        (false, "Clue cannot contain a word that appears on the board")
      else if is_rhyming_word cleaned_clue board_words_lower then
        (false, "Clue cannot rhyme with words on the board")
      else (true, "")

/-! ## Game state (`models/game_state.py`) -/

/-- `GamePhase`. -/
inductive GamePhase where
  | setup
  | clue_giving
  | guessing
  | game_over
deriving DecidableEq, Repr

/-- `TurnType`. -/
inductive TurnType where
  | chief_clue
  | detective_guess
deriving DecidableEq, Repr

/-- `GameState` from `models/game_state.py`: the board is a grid of optional
cards, the teams and the active clue are optional. -/
structure GameState where
  board : List (List (Option Card)) := List.replicate 5 (List.replicate 5 none)
  red_team : Option Team := none
  blue_team : Option Team := none
  current_team_color : CardColor := CardColor.red
  current_clue : Option Clue := none
  phase : GamePhase := GamePhase.setup
  turn_type : TurnType := TurnType.chief_clue
  game_over : Bool := false
  winner : Option Team := none
  starting_team_color : CardColor := CardColor.red
deriving DecidableEq, Repr

/-- `GameState.get_current_team` (may be `None`). -/
def GameState.get_current_team (s : GameState) : Option Team :=
  if s.current_team_color = CardColor.red then s.red_team else s.blue_team

/-- `GameState.get_opposing_team` (may be `None`). -/
def GameState.get_opposing_team (s : GameState) : Option Team :=
  if s.current_team_color = CardColor.red then s.blue_team else s.red_team

/-- `GameState.get_all_cards`: all non-`None` cards, row-major. -/
def GameState.get_all_cards (s : GameState) : List Card :=
  (s.board.map (fun row => row.filterMap id)).flatten

/-- `GameState.switch_teams`. -/
def GameState.switch_teams (s : GameState) : GameState :=
  { s with
    current_team_color :=
      if s.current_team_color = CardColor.red then CardColor.blue else CardColor.red,
    turn_type := TurnType.chief_clue,
    current_clue := none }

/-- `GameState.end_game`. -/
def GameState.end_game (s : GameState) (w : Team) : GameState :=
  { s with game_over := true, winner := some w, phase := GamePhase.game_over,
           current_clue := none }

/-! ## Rules engine (`game/rules.py`) -/

/-- The card `next(card for card in get_all_cards() if card.word.lower() == word.lower())`
resolves to: the first case-insensitive match in row-major order. -/
def findCard (word : String) (s : GameState) : Option Card :=
  s.get_all_cards.find? (fun c => pyLower c.word = pyLower word)

/-- Reveal the first case-insensitive match for `word` inside one board row;
returns whether a match was found together with the updated row. -/
def revealInRow (word : String) : List (Option Card) → Bool × List (Option Card)
  | [] => (false, [])
  | none :: rest =>
    let r := revealInRow word rest
    (r.1, none :: r.2)
  | some c :: rest =>
    if pyLower c.word = pyLower word then (true, some (c.reveal).2 :: rest)
    else
      let r := revealInRow word rest
      (r.1, some c :: r.2)

/-- Reveal the first case-insensitive match for `word` on the board (the
effect of `card.reveal()` on the card object aliased into the grid). -/
def revealFirst (word : String) : List (List (Option Card)) → Bool × List (List (Option Card))
  | [] => (false, [])
  | row :: rest =>
    let r := revealInRow word row
    if r.1 then (true, r.2 :: rest)
    else
      let r2 := revealFirst word rest
      (r2.1, row :: r2.2)

/-- `GameRules.validate_clue`, with the (unmutated) game state threaded through. -/
def validate_clue (clue_word : String) (number : Int) (s : GameState) :
    (Bool × String) × GameState :=
  if number < 1 then ((false, "Clue number must be at least 1"), s)
  else if number > 25 then ((false, "Clue number cannot exceed 25"), s)
  else
    let board_words := s.get_all_cards.map Card.word
    (is_valid_clue_word clue_word board_words, s)

/-- `GameRules.can_give_clue`; `none` models the `AttributeError` raised when
`has_chief` is called on an absent current team. -/
def can_give_clue (s : GameState) : Option (Bool × String) :=
  if s.game_over then some (false, "Game is over")
  else if s.turn_type ≠ TurnType.chief_clue then some (false, "Not clue-giving phase")
  else
    match s.get_current_team with
    | none => none
    | some t => if ¬ t.has_chief then some (false, "Team has no Chief") else some (true, "")

/-- `GameRules.can_make_guess`; `none` models the `AttributeError` raised when
`has_detectives` is called on an absent current team. -/
def can_make_guess (s : GameState) : Option (Bool × String) :=
  if s.game_over then some (false, "Game is over")
  else if s.turn_type ≠ TurnType.detective_guess then some (false, "Not guessing phase")
  else
    match s.current_clue with
    | none => some (false, "No active clue")
    | some clue =>
      if ¬ clue.has_guesses_left then some (false, "No guesses remaining for current clue")
      else
        match s.get_current_team with
        | none => none
        | some t =>
          if ¬ t.has_detectives then some (false, "Team has no Detectives") else some (true, "")

/-- `GameRules.validate_guess`, with the (unmutated) game state threaded through. -/
def validate_guess (word : String) (s : GameState) : (Bool × String) × GameState :=
  if word = "" ∨ pyStrip word = "" then ((false, "Guess cannot be empty"), s)
  else
    match findCard word s with
    | none => ((false, "Word " ++ word ++ " is not on the board"), s)
    | some card =>
      if card.revealed then ((false, "Word " ++ word ++ " has already been revealed"), s)
      else ((true, ""), s)

/-- Body of `GameRules.process_guess` once the guessed card and the active
clue have been resolved: reveal the card, consume a guess, then run the
outcome branches; `none` models the `AttributeError` raised by
`word_found` on an absent team. -/
def process_guess_aux (word : String) (card : Card) (clue : Clue) (s : GameState) :
    Option ((CardColor × Bool × Option Team) × GameState) :=
  let board2 := (revealFirst word s.board).2
  let revealed_color := card.color
  let clue2 := (clue.use_guess).2
  let s1 : GameState := { s with board := board2, current_clue := some clue2 }
  let current_team_color := s1.current_team_color
  let finish : GameState → Option ((CardColor × Bool × Option Team) × GameState) := fun s2 =>
    if revealed_color = current_team_color then
      if clue2.has_guesses_left then some ((revealed_color, true, none), s2)
      else some ((revealed_color, false, none), s2)
    else some ((revealed_color, false, none), s2)
  if revealed_color = CardColor.failure then
    some ((revealed_color, false, s1.get_opposing_team), s1)
  else if revealed_color = CardColor.red then
    match s1.red_team with
    | none => none
    | some rt =>
      let rt2 := rt.word_found
      let s2 := { s1 with red_team := some rt2 }
      if rt2.has_won then some ((revealed_color, false, some rt2), s2) else finish s2
  else if revealed_color = CardColor.blue then
    match s1.blue_team with
    | none => none
    | some bt =>
      let bt2 := bt.word_found
      let s2 := { s1 with blue_team := some bt2 }
      if bt2.has_won then some ((revealed_color, false, some bt2), s2) else finish s2
  else finish s1

/-- `GameRules.process_guess`: `none` models the uncaught `StopIteration`
when the word is not on the board, and the `AttributeError` when there is
no active clue. -/
def process_guess (word : String) (s : GameState) :
    Option ((CardColor × Bool × Option Team) × GameState) :=
  match findCard word s, s.current_clue with
  | some card, some clue => process_guess_aux word card clue s
  | _, _ => none

/-- `GameRules.should_end_turn`; `none` models the `AttributeError` raised by
`has_guesses_left` on an absent clue. -/
def should_end_turn (revealed_color : CardColor) (s : GameState) : Option Bool :=
  if revealed_color = CardColor.failure then some true
  else if revealed_color ≠ s.current_team_color then some true
  else
    match s.current_clue with
    | none => none
    | some clue => if ¬ clue.has_guesses_left then some true else some false

/-- `GameRules.check_game_end_conditions`, with the (unmutated) game state
threaded through; `none` models the `AttributeError` raised by `has_won`
on an absent team. -/
def check_game_end_conditions (s : GameState) : Option (Option Team × GameState) :=
  match s.red_team with
  | none => none
  | some rt =>
    if rt.has_won then some (some rt, s)
    else
      match s.blue_team with
      | none => none
      | some bt =>
        if bt.has_won then some (some bt, s)
        else if s.get_all_cards.any (fun c => decide (c.color = CardColor.failure) && c.revealed) then
          some (s.get_opposing_team, s)
        else some (none, s)

/-! ## Board generation (`game/board.py`) -/

/-- `BoardConfiguration` with its defaults. -/
structure BoardConfiguration where
  starting_team_words : Nat := 9
  second_team_words : Nat := 8
  neutral_words : Nat := 7
  failure_words : Nat := 1
deriving DecidableEq, Repr

/-- `GameBoard`'s mutable fields. -/
structure GameBoard where
  board : List (List (Option Card)) := List.replicate 5 (List.replicate 5 none)
  cards : List Card := []
  key_card : List CardColor := []
deriving DecidableEq, Repr

/-- `self.board[row][col] = card`. -/
def gridSet (g : List (List (Option Card))) (row col : Nat) (c : Card) :
    List (List (Option Card)) :=
  g.set row ((g.getD row []).set col (some c))

/-- `GameBoard.generate_board`: the `random.shuffle` of the color template is
modelled by the explicit `shuffle` parameter and `word_loader.get_game_words()`
by the `words` parameter; `ValueError` on a non-team starting color becomes
`Except.error`, raised before any field of the board is touched. -/
def generate_board (gb : GameBoard) (starting_team : CardColor) (words : List String)
    (shuffle : List CardColor → List CardColor) : Except String GameBoard :=
  if starting_team ≠ CardColor.red ∧ starting_team ≠ CardColor.blue then
    Except.error "Starting team must be RED or BLUE"
  else
    let config : BoardConfiguration := {}
    let second_team :=
      if starting_team = CardColor.red then CardColor.blue else CardColor.red
    let color_assignments :=
      List.replicate config.starting_team_words starting_team ++
      List.replicate config.second_team_words second_team ++
      List.replicate config.neutral_words CardColor.neutral ++
      List.replicate config.failure_words CardColor.failure
    let shuffled := shuffle color_assignments
    let pairs := (words.zip shuffled).enum
    let cards := pairs.map (fun p => Card.mk p.2.1 p.2.2 false (some (p.1 / 5, p.1 % 5)))
    let board2 := pairs.foldl
      (fun g p => gridSet g (p.1 / 5) (p.1 % 5) (Card.mk p.2.1 p.2.2 false (some (p.1 / 5, p.1 % 5))))
      gb.board
    Except.ok { board := board2, cards := cards, key_card := shuffled }

/-! ## Example values used by the witnesses and counterexamples -/

/-- A failure card. -/
def exCard : Card := { word := "apple", color := CardColor.failure }

/-- A red team mid-game. -/
def exRed : Team := { color := CardColor.red, words_remaining := 5, total_words := 9 }

/-- A blue team mid-game. -/
def exBlue : Team := { color := CardColor.blue, words_remaining := 4, total_words := 8 }

/-- An active clue with two guesses left. -/
def exClue : Clue :=
  { word := "hint", number := 1, team_color := CardColor.red, guesses_remaining := 2 }

/-- A guessing-phase state whose single card is the failure card. -/
def exState : GameState :=
  { board := [[some exCard]], red_team := some exRed, blue_team := some exBlue,
    current_team_color := CardColor.red, current_clue := some exClue,
    phase := GamePhase.guessing, turn_type := TurnType.detective_guess }

/-- `exState` after the game has ended. -/
def exOverState : GameState := { exState with game_over := true }

/-! ## Claim theorems -/

/-- Any `some` result of `check_game_end_conditions` carries the state unchanged. -/
lemma check_game_end_conditions_state {s : GameState} {p : Option Team × GameState}
    (h : check_game_end_conditions s = some p) : p.2 = s := by
  unfold check_game_end_conditions at h
  split at h
  · exact absurd h (by simp)
  · split at h
    · cases h; rfl
    · split at h
      · exact absurd h (by simp)
      · split at h
        · cases h; rfl
        · split at h
          · cases h; rfl
          · cases h; rfl

/-- C4: with both teams present, `check_game_end_conditions` returns the red
team if its `words_remaining` is 0, else the blue team if its
`words_remaining` is 0, else the team opposing the current team if some
FAILURE card is revealed, else no winner; the state is unchanged and a
repeated call on it returns the same answer. -/
theorem check_game_end_spec :
    (∀ (s : GameState) (rt bt : Team),
      s.red_team = some rt → s.blue_team = some bt →
      check_game_end_conditions s =
        some ((if rt.words_remaining = 0 then some rt
          else if bt.words_remaining = 0 then some bt
          else if s.get_all_cards.any
              (fun c => decide (c.color = CardColor.failure) && c.revealed) then
            s.get_opposing_team
          else none), s))
    ∧ (∀ (s s2 : GameState) (r : Option Team),
      check_game_end_conditions s = some (r, s2) →
      check_game_end_conditions s2 = some (r, s2)) := by
  constructor
  · intro s rt bt hr hb
    unfold check_game_end_conditions
    rw [hr, hb]
    by_cases h1 : rt.words_remaining = 0
    · simp [Team.has_won, h1]
    · by_cases h2 : bt.words_remaining = 0
      · simp [Team.has_won, h1, h2]
      · by_cases h3 : s.get_all_cards.any
            (fun c => decide (c.color = CardColor.failure) && c.revealed) = true
        · simp [Team.has_won, h1, h2, h3]
        · simp [Team.has_won, h1, h2, h3]
  · intro s s2 r h
    have hs : s2 = s := check_game_end_conditions_state h
    subst hs
    exact h

/-- Witness for C4 on a concrete mid-game state. -/
theorem check_game_end_spec_witness :
    check_game_end_conditions exState =
      some ((if exRed.words_remaining = 0 then some exRed
        else if exBlue.words_remaining = 0 then some exBlue
        else if exState.get_all_cards.any
            (fun c => decide (c.color = CardColor.failure) && c.revealed) then
          exState.get_opposing_team
        else none), exState) :=
  check_game_end_spec.1 exState exRed exBlue rfl rfl

/-- C7: a `Clue` constructed with the default (non-overriding)
`guesses_remaining` argument starts at `number + 1`; `use_guess` never drives
a non-negative count below 0; `has_guesses_left` holds exactly when the count
is positive. -/
theorem clue_guess_allowance :
    (∀ (w : String) (n : Int) (tc : CardColor) (c : Clue),
      mkClue w n tc 0 = Except.ok c → c.guesses_remaining = n + 1)
    ∧ (∀ c : Clue, 0 ≤ c.guesses_remaining → 0 ≤ (c.use_guess).2.guesses_remaining)
    ∧ (∀ c : Clue, c.has_guesses_left = true ↔ 0 < c.guesses_remaining) := by
  refine ⟨?_, ?_, ?_⟩
  · intro w n tc c h
    unfold mkClue at h
    by_cases h1 : n < 1
    · simp [h1] at h
    · by_cases h2 : pyStrip w = ""
      · simp [h1, h2] at h
      · by_cases h3 : tc ≠ CardColor.red ∧ tc ≠ CardColor.blue
        · simp [h1, h2, h3] at h
        · simp [h1, h2, h3] at h
          rw [← h]
  · intro c h
    unfold Clue.use_guess
    split
    · simp only
      omega
    · exact h
  · intro c
    unfold Clue.has_guesses_left
    simp

/-- Witness for C7: a clue built with number 3 starts with 4 guesses. -/
theorem clue_guess_allowance_witness :
    ({ word := "hint", number := 3, team_color := CardColor.red,
       guesses_remaining := 4 } : Clue).guesses_remaining = 3 + 1 :=
  clue_guess_allowance.1 "hint" 3 CardColor.red _ rfl

/-- C8: `validate_clue` and `validate_guess` return the game state entirely
unchanged, whether they accept or reject. -/
theorem validators_preserve_state :
    (∀ (w : String) (n : Int) (s : GameState), (validate_clue w n s).2 = s)
    ∧ (∀ (w : String) (s : GameState), (validate_guess w s).2 = s) := by
  constructor
  · intro w n s
    unfold validate_clue
    split
    · rfl
    · split
      · rfl
      · rfl
  · intro w s
    unfold validate_guess
    split
    · rfl
    · split
      · rfl
      · split
        · rfl
        · rfl

/-- C9: once `game_over` is set — in particular after `end_game` — neither a
clue can be given nor a guess made. -/
theorem no_actions_after_game_over :
    (∀ s : GameState, s.game_over = true →
      can_give_clue s = some (false, "Game is over") ∧
      can_make_guess s = some (false, "Game is over"))
    ∧ (∀ (s : GameState) (w : Team),
      can_give_clue (s.end_game w) = some (false, "Game is over") ∧
      can_make_guess (s.end_game w) = some (false, "Game is over")) := by
  have h1 : ∀ s : GameState, s.game_over = true →
      can_give_clue s = some (false, "Game is over") ∧
      can_make_guess s = some (false, "Game is over") := by
    intro s h
    constructor
    · unfold can_give_clue
      rw [h]
      rfl
    · unfold can_make_guess
      rw [h]
      rfl
  exact ⟨h1, fun s w => h1 (s.end_game w) rfl⟩

/-- Witness for C9 on a concrete ended state. -/
theorem no_actions_after_game_over_witness :
    can_give_clue exOverState = some (false, "Game is over") ∧
    can_make_guess exOverState = some (false, "Game is over") :=
  no_actions_after_game_over.1 exOverState rfl

/-- C10: a `Team` constructed with the default word counts has
`words_remaining = 0` and `has_won` immediately; consequently
`check_game_end_conditions` on a state whose red team still has the default
0 count reports the red team as winner although no card is revealed. -/
theorem default_team_counts_as_winner :
    (∀ color : CardColor, color = CardColor.red ∨ color = CardColor.blue →
      mkTeam color = Except.ok { color := color }
      ∧ Team.has_won { color := color } = true)
    ∧ (∀ (s : GameState) (rt bt : Team),
      s.red_team = some rt → s.blue_team = some bt →
      rt.words_remaining = 0 → bt.words_remaining = 0 →
      s.get_all_cards.all (fun c => !c.revealed) = true →
      (check_game_end_conditions s).map Prod.fst = some (some rt)) := by
  constructor
  · intro color h
    constructor
    · unfold mkTeam
      rcases h with h | h <;> simp [h]
    · rfl
  · intro s rt bt hr _hb hw _hbw _hall
    unfold check_game_end_conditions
    rw [hr]
    simp [Team.has_won, hw]

/-- Witness for C10: a fresh state with both teams at their default counts. -/
theorem default_team_counts_as_winner_witness :
    (mkTeam CardColor.red = Except.ok { color := CardColor.red }
      ∧ Team.has_won { color := CardColor.red } = true)
    ∧ (check_game_end_conditions
        { board := [[some { word := "apple", color := CardColor.failure }]],
          red_team := some { color := CardColor.red },
          blue_team := some { color := CardColor.blue } }).map Prod.fst =
      some (some { color := CardColor.red }) :=
  ⟨default_team_counts_as_winner.1 CardColor.red (Or.inl rfl),
   default_team_counts_as_winner.2
     { board := [[some { word := "apple", color := CardColor.failure }]],
       red_team := some { color := CardColor.red },
       blue_team := some { color := CardColor.blue } }
     { color := CardColor.red } { color := CardColor.blue }
     rfl rfl rfl rfl rfl⟩

/-- C1: with an active clue and a current team, a guess resolving to an
unrevealed FAILURE card makes `process_guess` return `continue = false` and
winner = the team opposing the current team, whatever the turn or the word
counts. "The word of an unrevealed FAILURE card" is formalised as: the card
the guess resolves to (first case-insensitive match, as in the code) is an
unrevealed FAILURE card. -/
theorem process_guess_failure_card (word : String) (s : GameState) (card : Card) (clue : Clue)
    (hfind : findCard word s = some card)
    (hclue : s.current_clue = some clue)
    (hcolor : card.color = CardColor.failure)
    (hunrev : card.revealed = false)
    (hteam : (s.get_current_team).isSome = true) :
    (process_guess word s).map (fun r => (r.1.1, r.1.2.1, r.1.2.2)) =
      some (CardColor.failure, false, s.get_opposing_team) := by
  unfold process_guess
  rw [hfind, hclue]
  dsimp only
  unfold process_guess_aux
  simp [hcolor, GameState.get_opposing_team]

/-- Witness for C1: guessing the failure card of `exState`. -/
theorem process_guess_failure_card_witness :
    (process_guess "apple" exState).map (fun r => (r.1.1, r.1.2.1, r.1.2.2)) =
      some (CardColor.failure, false, exState.get_opposing_team) :=
  process_guess_failure_card "apple" exState exCard exClue rfl rfl rfl rfl rfl

/-- A red card for the C2 counterexample. -/
def cexCard : Card := { word := "cat", color := CardColor.red }

/-- A red team one word away from winning. -/
def cexRed : Team := { color := CardColor.red, words_remaining := 1, total_words := 9 }

/-- A state satisfying C2's hypotheses whose current team has only one word
left. -/
def cexState : GameState :=
  { board := [[some cexCard]], red_team := some cexRed, blue_team := some exBlue,
    current_team_color := CardColor.red, current_clue := some exClue,
    phase := GamePhase.guessing, turn_type := TurnType.detective_guess }

/-- C2 as stated is false: `cexState` has an active clue with 2 guesses
remaining, and the guess resolves to an unrevealed card of the current
team's color, yet `process_guess` returns `continue = false` with a winner,
because the team's last word was found. -/
theorem process_guess_own_color_cex :
    cexState.current_clue = some exClue ∧ (2 : Int) ≤ exClue.guesses_remaining ∧
    findCard "cat" cexState = some cexCard ∧ cexCard.revealed = false ∧
    cexCard.color = cexState.current_team_color ∧
    (process_guess "cat" cexState).map (fun r => (r.1.2.1, r.1.2.2)) =
      some (false, some { cexRed with words_remaining := 0 }) :=
  ⟨rfl, by decide, rfl, rfl, rfl, rfl⟩

/-- C2 (amended): additionally assuming the current team has at least 2
words remaining, a guess resolving to an unrevealed card of the current
team's color, with at least 2 clue guesses remaining beforehand, returns
`continue = true`, no winner, and decrements that team's `words_remaining`
by exactly 1. -/
theorem process_guess_own_color (word : String) (s : GameState) (card : Card) (clue : Clue)
    (t : Team)
    (hclue : s.current_clue = some clue)
    (hg : 2 ≤ clue.guesses_remaining)
    (hfind : findCard word s = some card)
    (hunrev : card.revealed = false)
    (hteam : (s.current_team_color = CardColor.red ∧ s.red_team = some t) ∨
             (s.current_team_color = CardColor.blue ∧ s.blue_team = some t))
    (hcolor : card.color = s.current_team_color)
    (hw : 2 ≤ t.words_remaining) :
    (process_guess word s).map
        (fun r => (r.1.1, r.1.2.1, r.1.2.2, (r.2.get_current_team).map Team.words_remaining)) =
      some (s.current_team_color, true, none, some (t.words_remaining - 1)) := by
  have hw0 : t.words_remaining > 0 := by omega
  have hw1 : ¬(t.words_remaining - 1 = 0) := by omega
  have hg0 : clue.guesses_remaining > 0 := by omega
  have hg1 : clue.guesses_remaining - 1 > 0 := by omega
  unfold process_guess
  rw [hfind, hclue]
  dsimp only
  unfold process_guess_aux
  rcases hteam with ⟨hc, ht⟩ | ⟨hc, ht⟩ <;>
    rw [hc] at hcolor ⊢ <;>
    simp [hcolor, ht, Team.word_found, Team.has_won, Clue.use_guess, Clue.has_guesses_left,
      GameState.get_current_team, hc, hw0, hw1, hg0, hg1]

/-- A red card for the amended-C2 witness. -/
def exTreeCard : Card := { word := "tree", color := CardColor.red }

/-- A guessing-phase state whose red team still has 5 words. -/
def exTreeState : GameState :=
  { board := [[some exTreeCard]], red_team := some exRed, blue_team := some exBlue,
    current_team_color := CardColor.red, current_clue := some exClue,
    phase := GamePhase.guessing, turn_type := TurnType.detective_guess }

/-- Witness for the amended C2: a red guess on a comfortable lead. -/
theorem process_guess_own_color_witness :
    (process_guess "tree" exTreeState).map
        (fun r => (r.1.1, r.1.2.1, r.1.2.2, (r.2.get_current_team).map Team.words_remaining)) =
      some (exTreeState.current_team_color, true, none,
        some (exRed.words_remaining - 1)) :=
  process_guess_own_color "tree" exTreeState exTreeCard exClue exRed rfl (by decide) rfl rfl
    (Or.inl ⟨rfl, rfl⟩) rfl (by decide)

/-- C3: `should_end_turn` (with an active clue) is true exactly when the
color is FAILURE, or differs from the current team's color, or the clue has
no guesses left; and whenever `process_guess` returns `(color, continue,
winner = none)`, `should_end_turn` on that color and the resulting state is
the negation of `continue`. -/
theorem should_end_turn_spec :
    (∀ (color : CardColor) (s : GameState) (c : Clue), s.current_clue = some c →
      should_end_turn color s =
        some (decide (color = CardColor.failure) || decide (color ≠ s.current_team_color)
          || !c.has_guesses_left))
    ∧ (∀ (word : String) (s s2 : GameState) (color : CardColor) (cont : Bool),
      process_guess word s = some ((color, cont, none), s2) →
      should_end_turn color s2 = some (!cont)) := by
  constructor
  · intro color s c hc
    unfold should_end_turn
    rw [hc]
    by_cases h1 : color = CardColor.failure
    · simp [h1]
    · by_cases h2 : color = s.current_team_color
      · rw [h2] at h1
        cases hgl : c.has_guesses_left <;> simp [h1, h2, hgl]
      · simp [h1, h2]
  · intro word s s2 color cont h
    unfold process_guess at h
    rcases hfind : findCard word s with _ | card <;> rw [hfind] at h
    · simp at h
    rcases hclue : s.current_clue with _ | clue <;> rw [hclue] at h
    · simp at h
    dsimp only at h
    unfold process_guess_aux at h
    dsimp only at h
    by_cases hfail : card.color = CardColor.failure
    · rw [if_pos hfail] at h
      simp only [Option.some.injEq, Prod.mk.injEq] at h
      obtain ⟨⟨hcol, hcont, hwin⟩, hst⟩ := h
      subst hcol; subst hcont; subst hst
      simp [should_end_turn, hfail]
    · rw [if_neg hfail] at h
      by_cases hred : card.color = CardColor.red
      · rw [if_pos hred] at h
        rcases hrt : s.red_team with _ | rt <;> rw [hrt] at h
        · simp at h
        dsimp only at h
        by_cases hwon : rt.word_found.has_won = true
        · rw [if_pos hwon] at h
          simp at h
        · rw [if_neg hwon] at h
          by_cases hcc : card.color = s.current_team_color
          · rw [if_pos hcc] at h; rw [hcc] at hfail
            by_cases hgl : (clue.use_guess).2.has_guesses_left = true
            · rw [if_pos hgl] at h
              simp only [Option.some.injEq, Prod.mk.injEq] at h
              obtain ⟨⟨hcol, hcont, hwin⟩, hst⟩ := h
              subst hcol; subst hcont; subst hst
              simp [should_end_turn, hfail, hcc, hgl]
            · rw [if_neg hgl] at h
              simp only [Option.some.injEq, Prod.mk.injEq] at h
              obtain ⟨⟨hcol, hcont, hwin⟩, hst⟩ := h
              subst hcol; subst hcont; subst hst
              simp [should_end_turn, hfail, hcc, hgl]
          · rw [if_neg hcc] at h
            simp only [Option.some.injEq, Prod.mk.injEq] at h
            obtain ⟨⟨hcol, hcont, hwin⟩, hst⟩ := h
            subst hcol; subst hcont; subst hst
            simp [should_end_turn, hfail, hcc]
      · rw [if_neg hred] at h
        by_cases hblue : card.color = CardColor.blue
        · rw [if_pos hblue] at h
          rcases hbt : s.blue_team with _ | bt <;> rw [hbt] at h
          · simp at h
          dsimp only at h
          by_cases hwon : bt.word_found.has_won = true
          · rw [if_pos hwon] at h
            simp at h
          · rw [if_neg hwon] at h
            by_cases hcc : card.color = s.current_team_color
            · rw [if_pos hcc] at h; rw [hcc] at hfail
              by_cases hgl : (clue.use_guess).2.has_guesses_left = true
              · rw [if_pos hgl] at h
                simp only [Option.some.injEq, Prod.mk.injEq] at h
                obtain ⟨⟨hcol, hcont, hwin⟩, hst⟩ := h
                subst hcol; subst hcont; subst hst
                simp [should_end_turn, hfail, hcc, hgl]
              · rw [if_neg hgl] at h
                simp only [Option.some.injEq, Prod.mk.injEq] at h
                obtain ⟨⟨hcol, hcont, hwin⟩, hst⟩ := h
                subst hcol; subst hcont; subst hst
                simp [should_end_turn, hfail, hcc, hgl]
            · rw [if_neg hcc] at h
              simp only [Option.some.injEq, Prod.mk.injEq] at h
              obtain ⟨⟨hcol, hcont, hwin⟩, hst⟩ := h
              subst hcol; subst hcont; subst hst
              simp [should_end_turn, hfail, hcc]
        · rw [if_neg hblue] at h
          by_cases hcc : card.color = s.current_team_color
          · rw [if_pos hcc] at h; rw [hcc] at hfail
            by_cases hgl : (clue.use_guess).2.has_guesses_left = true
            · rw [if_pos hgl] at h
              simp only [Option.some.injEq, Prod.mk.injEq] at h
              obtain ⟨⟨hcol, hcont, hwin⟩, hst⟩ := h
              subst hcol; subst hcont; subst hst
              simp [should_end_turn, hfail, hcc, hgl]
            · rw [if_neg hgl] at h
              simp only [Option.some.injEq, Prod.mk.injEq] at h
              obtain ⟨⟨hcol, hcont, hwin⟩, hst⟩ := h
              subst hcol; subst hcont; subst hst
              simp [should_end_turn, hfail, hcc, hgl]
          · rw [if_neg hcc] at h
            simp only [Option.some.injEq, Prod.mk.injEq] at h
            obtain ⟨⟨hcol, hcont, hwin⟩, hst⟩ := h
            subst hcol; subst hcont; subst hst
            simp [should_end_turn, hfail, hcc]

/-- Witness for C3: the characterisation applied to a FAILURE reveal on
`exState`. -/
theorem should_end_turn_spec_witness :
    should_end_turn CardColor.failure exState = some true :=
  should_end_turn_spec.1 CardColor.failure exState exClue rfl

/-- The colors of the generated cards are exactly the shuffled color list
(when enough words are supplied). -/
lemma generated_cards_map_color (words : List String) (colors : List CardColor)
    (h : colors.length ≤ words.length) :
    (((words.zip colors).enum).map
        (fun q => Card.mk q.2.1 q.2.2 false (some (q.1 / 5, q.1 % 5)))).map Card.color
      = colors := by
  rw [List.map_map]
  have h1 : (Card.color ∘ fun q : Nat × String × CardColor =>
      Card.mk q.2.1 q.2.2 false (some (q.1 / 5, q.1 % 5))) =
      ((Prod.snd : String × CardColor → CardColor) ∘
        (Prod.snd : Nat × (String × CardColor) → String × CardColor)) := rfl
  rw [h1, ← List.map_map, List.enum_map_snd, List.map_snd_zip _ _ h]

/-- Counting a color among the generated cards counts it in the shuffled
color list. -/
lemma generated_cards_countP (words : List String) (colors : List CardColor)
    (h : colors.length ≤ words.length) (x : CardColor) :
    (((words.zip colors).enum).map
        (fun q => Card.mk q.2.1 q.2.2 false (some (q.1 / 5, q.1 % 5)))).countP
      (fun c => decide (c.color = x)) = colors.countP (fun col => decide (col = x)) := by
  have h2 : ∀ (l : List (Nat × String × CardColor)),
      (l.map (fun q => Card.mk q.2.1 q.2.2 false (some (q.1 / 5, q.1 % 5)))).countP
        (fun c => decide (c.color = x)) = l.countP (fun q => decide (q.2.2 = x)) := by
    intro l
    rw [List.countP_map]
    rfl
  rw [h2]
  have h3 : (words.zip colors).enum.countP (fun q => decide (q.2.2 = x)) =
      (words.zip colors).countP (fun p => decide (p.2 = x)) := by
    conv_lhs => rw [show (fun q : Nat × String × CardColor => decide (q.2.2 = x)) =
      ((fun p : String × CardColor => decide (p.2 = x)) ∘ Prod.snd) from rfl]
    rw [← List.countP_map, List.enum_map_snd]
  rw [h3]
  conv_lhs => rw [show (fun p : String × CardColor => decide (p.2 = x)) =
    ((fun col : CardColor => decide (col = x)) ∘ Prod.snd) from rfl]
  rw [← List.countP_map, List.map_snd_zip _ _ h]

/-- C6: generating with a RED or BLUE starting team and a 25-word supply (the
shuffle being a permutation, as `random.shuffle` is) yields exactly 25 cards
with color counts 9 / 8 / 7 / 1 for starting team / other team / neutral /
failure; any other starting color errors out before touching the board. -/
theorem generate_board_spec :
    (∀ (gb : GameBoard) (starting : CardColor) (words : List String)
        (shuffle : List CardColor → List CardColor),
      (starting = CardColor.red ∨ starting = CardColor.blue) →
      words.length = 25 →
      (∀ l, (shuffle l).Perm l) →
      (generate_board gb starting words shuffle).toOption.map
          (fun g => (g.cards.length,
            g.cards.countP (fun c => decide (c.color = starting)),
            g.cards.countP (fun c => decide (c.color =
              (if starting = CardColor.red then CardColor.blue else CardColor.red))),
            g.cards.countP (fun c => decide (c.color = CardColor.neutral)),
            g.cards.countP (fun c => decide (c.color = CardColor.failure)))) =
        some (25, 9, 8, 7, 1))
    ∧ (∀ (gb : GameBoard) (starting : CardColor) (words : List String)
        (shuffle : List CardColor → List CardColor),
      starting ≠ CardColor.red → starting ≠ CardColor.blue →
      generate_board gb starting words shuffle =
        Except.error "Starting team must be RED or BLUE") := by
  constructor
  · intro gb starting words shuffle hstart hlen hperm
    unfold generate_board
    have hns : ¬(starting ≠ CardColor.red ∧ starting ≠ CardColor.blue) := by
      rcases hstart with h | h <;> simp [h]
    rw [if_neg hns]
    simp only [Except.toOption, Option.map]
    set second := if starting = CardColor.red then CardColor.blue else CardColor.red with hsec
    set template := List.replicate 9 starting ++ List.replicate 8 second ++
      List.replicate 7 CardColor.neutral ++ List.replicate 1 CardColor.failure with htmp
    have htl : template.length = 25 := by simp [htmp]
    have hsl : (shuffle template).length = 25 := by
      rw [(hperm template).length_eq, htl]
    have hle : (shuffle template).length ≤ words.length := by rw [hsl, hlen]
    have hcnt : ∀ x : CardColor,
        (shuffle template).countP (fun col => decide (col = x)) =
        template.countP (fun col => decide (col = x)) :=
      fun x => (hperm template).countP_eq _
    refine congrArg some ?_
    refine Prod.ext ?_ (Prod.ext ?_ (Prod.ext ?_ (Prod.ext ?_ ?_))) <;>
      try dsimp only [Prod.fst, Prod.snd]
    · rw [List.length_map, List.enum_length, List.length_zip, hlen, hsl]
      exact min_self 25
    · rw [generated_cards_countP words (shuffle template) hle starting, hcnt starting]
      rcases hstart with h | h <;>
        simp [htmp, hsec, h, List.countP_append, List.countP_replicate]
    · rw [generated_cards_countP words (shuffle template) hle second, hcnt second]
      rcases hstart with h | h <;>
        simp [htmp, hsec, h, List.countP_append, List.countP_replicate]
    · rw [generated_cards_countP words (shuffle template) hle CardColor.neutral,
        hcnt CardColor.neutral]
      rcases hstart with h | h <;>
        simp [htmp, hsec, h, List.countP_append, List.countP_replicate]
    · rw [generated_cards_countP words (shuffle template) hle CardColor.failure,
        hcnt CardColor.failure]
      rcases hstart with h | h <;>
        simp [htmp, hsec, h, List.countP_append, List.countP_replicate]
  · intro gb starting words shuffle h1 h2
    unfold generate_board
    rw [if_pos ⟨h1, h2⟩]

/-- Witness for C6: a concrete generation with the identity shuffle, and a
concrete rejected generation from a NEUTRAL starting color. -/
theorem generate_board_spec_witness :
    (generate_board {} CardColor.red (List.replicate 25 "w") id).toOption.map
        (fun g => (g.cards.length,
          g.cards.countP (fun c => decide (c.color = CardColor.red)),
          g.cards.countP (fun c => decide (c.color =
            (if CardColor.red = CardColor.red then CardColor.blue else CardColor.red))),
          g.cards.countP (fun c => decide (c.color = CardColor.neutral)),
          g.cards.countP (fun c => decide (c.color = CardColor.failure)))) =
      some (25, 9, 8, 7, 1)
    ∧ generate_board {} CardColor.neutral (List.replicate 25 "w") id =
      Except.error "Starting team must be RED or BLUE" :=
  ⟨generate_board_spec.1 {} CardColor.red (List.replicate 25 "w") id (Or.inl rfl) rfl
      (fun l => List.Perm.refl l),
   generate_board_spec.2 {} CardColor.neutral (List.replicate 25 "w") id
      (by decide) (by decide)⟩

/-- Two characters with different code points differ. -/
lemma char_ne_of_val_ne {c d : Char} (h : c.val.toNat ≠ d.val.toNat) : c ≠ d :=
  fun he => h (by rw [he])

/-- The character facts about a decimal digit that the validator path needs. -/
lemma digit_char_facts (c : Char) (h : c.isDigit = true) :
    c.isWhitespace = false ∧ c.toLower = c ∧ c ≠ Char.ofNat 45 ∧ c ≠ apostChar ∧
    c.isAlpha = false := by
  unfold Char.isDigit at h
  simp only [Bool.and_eq_true, decide_eq_true_eq] at h
  obtain ⟨h1, h2⟩ := h
  have n1 : (48 : UInt32).toNat ≤ c.val.toNat := h1
  have n2 : c.val.toNat ≤ (57 : UInt32).toNat := h2
  have e48 : (48 : UInt32).toNat = 48 := rfl
  have e57 : (57 : UInt32).toNat = 57 := rfl
  rw [e48] at n1
  rw [e57] at n2
  refine ⟨?_, ?_, ?_, ?_, ?_⟩
  · unfold Char.isWhitespace
    have hsp : c ≠ ' ' := char_ne_of_val_ne (by have : (' ' : Char).val.toNat = 32 := rfl; omega)
    have htb : c ≠ '\t' := char_ne_of_val_ne (by have : ('\t' : Char).val.toNat = 9 := rfl; omega)
    have hcr : c ≠ '\x0d' :=
      char_ne_of_val_ne (by have : ('\x0d' : Char).val.toNat = 13 := rfl; omega)
    have hnl : c ≠ '\n' :=
      char_ne_of_val_ne (by have : ('\n' : Char).val.toNat = 10 := rfl; omega)
    simp [hsp, htb, hcr, hnl]
  · unfold Char.toLower
    have hn : c.toNat = c.val.toNat := rfl
    rw [if_neg]
    intro hc
    omega
  · exact char_ne_of_val_ne (by have : (Char.ofNat 45).val.toNat = 45 := rfl; omega)
  · exact char_ne_of_val_ne (by have : apostChar.val.toNat = 39 := rfl; omega)
  · unfold Char.isAlpha Char.isUpper Char.isLower
    have hu1 : ¬((65 : UInt32) ≤ c.val) := by
      intro hc
      have : (65 : UInt32).toNat ≤ c.val.toNat := hc
      have e65 : (65 : UInt32).toNat = 65 := rfl
      omega
    have hl1 : ¬((97 : UInt32) ≤ c.val) := by
      intro hc
      have : (97 : UInt32).toNat ≤ c.val.toNat := hc
      have e97 : (97 : UInt32).toNat = 97 := rfl
      omega
    have ha : ('A' : Char).val = 65 := rfl
    have hb : ('a' : Char).val = 97 := rfl
    have hle1 : ¬('A' ≤ c) := by rw [Char.le_def, ha]; exact hu1
    have hle2 : ¬('a' ≤ c) := by rw [Char.le_def, hb]; exact hl1
    simp [hle1, hle2]
    exact ⟨fun hc => absurd hc hu1, fun hc => absurd hc hl1⟩

/-- An element not satisfying `p` is never dropped by `dropWhile p`. -/
lemma mem_dropWhile_of_neg {α : Type} (p : α → Bool) {c : α} {l : List α}
    (h : c ∈ l) (hp : p c = false) : c ∈ l.dropWhile p := by
  have hsplit := List.takeWhile_append_dropWhile (p := p) (l := l)
  rcases List.mem_append.mp (hsplit ▸ h) with h1 | h1
  · have := List.mem_takeWhile_imp h1
    rw [hp] at this
    cases this
  · exact h1

/-- A non-whitespace character of `l` survives `pyStripList`. -/
lemma mem_pyStripList {c : Char} {l : List Char} (h : c ∈ l)
    (hw : c.isWhitespace = false) : c ∈ pyStripList l := by
  unfold pyStripList
  rw [List.mem_reverse]
  apply mem_dropWhile_of_neg _ _ hw
  rw [List.mem_reverse]
  exact mem_dropWhile_of_neg _ h hw

/-- Stripping yields a contiguous slice of the original character list. -/
lemma pyStripList_slice (l : List Char) : pyStripList l <:+: l := by
  unfold pyStripList
  have h1 : l.dropWhile Char.isWhitespace <:+ l := List.dropWhile_suffix _
  have h2 : (l.dropWhile Char.isWhitespace).reverse.dropWhile Char.isWhitespace <:+
      (l.dropWhile Char.isWhitespace).reverse := List.dropWhile_suffix _
  have h3 := List.reverse_prefix.mpr h2
  rw [List.reverse_reverse] at h3
  exact h3.isInfix.trans h1.isInfix

/-- Inversion of an accepting run of the clue validator: every sequential
check must have passed. -/
lemma is_valid_clue_word_true {clue : String} {board_words : List String}
    (h : (is_valid_clue_word clue board_words).1 = true) :
    ¬(clue = "" ∨ pyStrip clue = "") ∧
    pyIsAlphaList (pyRemoveChar apostChar (pyRemoveChar (Char.ofNat 45)
      (pyLower (pyStrip clue)).data)) = true ∧
    ¬((pyLower (pyStrip clue)).data.length < 2) ∧
    pyLower (pyStrip clue) ∉ board_words.map pyLower ∧
    contains_board_word (pyLower (pyStrip clue)) (board_words.map pyLower) = false ∧
    is_rhyming_word (pyLower (pyStrip clue)) (board_words.map pyLower) = false := by
  unfold is_valid_clue_word at h
  split at h
  · simp at h
  · dsimp only at h
    split at h
    · simp at h
    · split at h
      · simp at h
      · split at h
        · simp at h
        · split at h
          · simp at h
          · split at h
            · simp at h
            · rename_i hns hal hlen hmem hcon hrhy
              exact ⟨hns, by simpa using hal, hlen, hmem, by simpa using hcon,
                by simpa using hrhy⟩

/-- C5 (amended): the validator rejects the empty or all-whitespace clue, any
clue containing a digit, and any clue equal case-insensitively to a board
word; and it rejects containment (either direction, against a board word of
length ≥ 3) and shared last-3-characters (both lengths ≥ 4) when these are
measured on the clue's whitespace-trimmed lowercase form — the form the code
actually compares. -/
theorem clue_validator_rejects : ∀ (clue : String) (board_words : List String),
    ((clue = "" ∨ pyStrip clue = "") → (is_valid_clue_word clue board_words).1 = false)
    ∧ ((∃ ch ∈ clue.data, ch.isDigit = true) →
        (is_valid_clue_word clue board_words).1 = false)
    ∧ (∀ w ∈ board_words, pyLower clue = pyLower w →
        (is_valid_clue_word clue board_words).1 = false)
    ∧ (∀ w ∈ board_words, 3 ≤ (pyLower w).length →
        (pyIn (pyLower w) (pyLower (pyStrip clue)) = true ∨
          pyIn (pyLower (pyStrip clue)) (pyLower w) = true) →
        (is_valid_clue_word clue board_words).1 = false)
    ∧ (∀ w ∈ board_words, 4 ≤ (pyLower (pyStrip clue)).data.length →
        4 ≤ (pyLower w).data.length →
        lastThree (pyLower (pyStrip clue)) = lastThree (pyLower w) →
        (is_valid_clue_word clue board_words).1 = false) := by
  intro clue board_words
  refine ⟨?_, ?_, ?_, ?_, ?_⟩
  · intro h
    unfold is_valid_clue_word
    rw [if_pos h]
  · rintro ⟨ch, hch, hdig⟩
    cases hval : (is_valid_clue_word clue board_words).1
    · rfl
    · exfalso
      obtain ⟨_, hal, _, _, _, _⟩ := is_valid_clue_word_true hval
      obtain ⟨hws, hlow, hdash, hapo, halpha⟩ := digit_char_facts ch hdig
      have hm1 : ch ∈ pyStripList clue.data := mem_pyStripList hch hws
      have hm2 : ch ∈ (pyLower (pyStrip clue)).data := by
        show ch ∈ (pyStripList clue.data).map Char.toLower
        rw [← hlow]
        exact List.mem_map_of_mem Char.toLower hm1
      have hm3 : ch ∈ pyRemoveChar (Char.ofNat 45) (pyLower (pyStrip clue)).data :=
        List.mem_filter.mpr ⟨hm2, decide_eq_true hdash⟩
      have hm4 : ch ∈ pyRemoveChar apostChar (pyRemoveChar (Char.ofNat 45)
          (pyLower (pyStrip clue)).data) :=
        List.mem_filter.mpr ⟨hm3, decide_eq_true hapo⟩
      unfold pyIsAlphaList at hal
      rw [Bool.and_eq_true, List.all_eq_true] at hal
      have := hal.2 ch hm4
      rw [halpha] at this
      cases this
  · intro w hw hlow
    cases hval : (is_valid_clue_word clue board_words).1
    · rfl
    · exfalso
      obtain ⟨_, _, hlen, hmem, hcon, _⟩ := is_valid_clue_word_true hval
      have hinf : (pyLower (pyStrip clue)).data <:+: (pyLower clue).data := by
        show (pyStripList clue.data).map Char.toLower <:+: clue.data.map Char.toLower
        exact (pyStripList_slice clue.data).map Char.toLower
      rw [hlow] at hinf
      by_cases heq : (pyLower (pyStrip clue)).data.length = (pyLower w).data.length
      · have hdata : (pyLower (pyStrip clue)).data = (pyLower w).data :=
          hinf.eq_of_length heq
        have hstr : pyLower (pyStrip clue) = pyLower w := by
          have hdata2 : pyLowerList (pyStripList clue.data) = pyLowerList w.data := hdata
          exact congrArg String.mk hdata2
        exact hmem (hstr ▸ List.mem_map_of_mem pyLower hw)
      · have hlt : (pyLower (pyStrip clue)).data.length < (pyLower w).data.length :=
          lt_of_le_of_ne hinf.length_le heq
        have hc : contains_board_word (pyLower (pyStrip clue))
            (board_words.map pyLower) = true := by
          unfold contains_board_word
          rw [List.any_eq_true]
          refine ⟨pyLower w, List.mem_map_of_mem pyLower hw, ?_⟩
          rw [Bool.and_eq_true]
          constructor
          · apply decide_eq_true
            show 3 ≤ (pyLower w).data.length
            omega
          · rw [Bool.or_eq_true]
            right
            exact decide_eq_true hinf
        rw [hcon] at hc
        cases hc
  · intro w hw hwlen hdisj
    cases hval : (is_valid_clue_word clue board_words).1
    · rfl
    · exfalso
      obtain ⟨_, _, _, _, hcon, _⟩ := is_valid_clue_word_true hval
      have hc : contains_board_word (pyLower (pyStrip clue))
          (board_words.map pyLower) = true := by
        unfold contains_board_word
        rw [List.any_eq_true]
        refine ⟨pyLower w, List.mem_map_of_mem pyLower hw, ?_⟩
        rw [Bool.and_eq_true]
        constructor
        · exact decide_eq_true hwlen
        · rw [Bool.or_eq_true]
          rcases hdisj with h | h
          · exact Or.inl h
          · exact Or.inr h
      rw [hcon] at hc
      cases hc
  · intro w hw hl1 hl2 hlast
    cases hval : (is_valid_clue_word clue board_words).1
    · rfl
    · exfalso
      obtain ⟨_, _, _, _, _, hrhy⟩ := is_valid_clue_word_true hval
      have hc : is_rhyming_word (pyLower (pyStrip clue))
          (board_words.map pyLower) = true := by
        unfold is_rhyming_word
        rw [List.any_eq_true]
        refine ⟨pyLower w, List.mem_map_of_mem pyLower hw, ?_⟩
        unfold words_rhyme
        rw [if_neg (by omega)]
        by_cases heq : pyLower (pyStrip clue) = pyLower w
        · rw [if_pos heq]
        · rw [if_neg heq, if_pos ⟨hlast, by omega, by omega⟩]
      rw [hrhy] at hc
      cases hc

/-- Witness for the amended C5: the validator rejects a clue equal to a board
word up to case. -/
theorem clue_validator_rejects_witness :
    (is_valid_clue_word "CAT" ["cat"]).1 = false :=
  (clue_validator_rejects "CAT" ["cat"]).2.2.1 "cat" (by simp) (by decide)

/-- C5 as stated is false on raw (untrimmed) strings: the clue " cat "
contains the length-3 board word " ca" as a substring yet is accepted,
because the code compares the trimmed clue "cat", which neither contains nor
is contained in " ca" and does not rhyme with it. -/
theorem clue_validator_cex :
    3 ≤ (" ca" : String).length ∧
    pyIn (pyLower " ca") (pyLower " cat ") = true ∧
    (is_valid_clue_word " cat " [" ca"]).1 = true :=
  ⟨by decide, by decide, by rfl⟩

end WordDetective
